import Mathlib

/-!
Verification development for the academic-paper discovery and gap-filling
pipeline (src/academic_search.py and src/research_agent.py), as a shallow
embedding: Python functions become Lean functions over explicit environments
describing the outcomes of external calls (HTTP requests, the optional
text-generation client, the knowledge-store client); a Python function that
can raise returns an `Except`.
-/

set_option maxRecDepth 100000

namespace RA

instance {ε α : Type} [DecidableEq ε] [DecidableEq α] : DecidableEq (Except ε α) :=
  fun a b =>
    match a, b with
    | .ok x, .ok y =>
      if h : x = y then isTrue (by rw [h]) else isFalse (by intro hc; cases hc; exact h rfl)
    | .error x, .error y =>
      if h : x = y then isTrue (by rw [h]) else isFalse (by intro hc; cases hc; exact h rfl)
    | .ok _, .error _ => isFalse (by intro hc; cases hc)
    | .error _, .ok _ => isFalse (by intro hc; cases hc)

/-! Python string primitives used by the embedded code.  They are written
over the character list of the string with structural recursion, so that the
kernel can evaluate them on concrete inputs. -/

/-- Python `str.strip()` (whitespace at both ends). -/
def pyStrip (s : String) : String :=
  ⟨(((s.data.dropWhile Char.isWhitespace).reverse).dropWhile
      Char.isWhitespace).reverse⟩

/-- Split a character list at every character satisfying `p`, keeping empty
pieces (the behaviour of Python `str.split(sep)` for a one-character `sep`). -/
def splitPredAux (p : Char → Bool) : List Char → List Char → List (List Char)
  | [], acc => [acc.reverse]
  | c :: cs, acc =>
    if p c then acc.reverse :: splitPredAux p cs []
    else splitPredAux p cs (c :: acc)

/-- Split a string at every character satisfying `p`, keeping empty pieces. -/
def splitPred (p : Char → Bool) (s : String) : List String :=
  (splitPredAux p s.data []).map (fun l => ⟨l⟩)

/-- Python `str.split()` with no argument: split on whitespace, dropping
empty pieces. -/
def pySplitWs (s : String) : List String :=
  (splitPred Char.isWhitespace s).filter (fun t => decide (t ≠ ""))

/-- Python `sep.join(l)`. -/
def pyJoin (sep : String) (l : List String) : String := String.intercalate sep l

/-- Python `str.lower()` (character-wise, as in Lean's `String.toLower`). -/
def pyLower (s : String) : String := ⟨s.data.map Char.toLower⟩

/-- One occurrence of `needle` starts somewhere in `hay`. -/
def containsAux (needle : List Char) : List Char → Bool
  | [] => needle.isPrefixOf []
  | c :: cs => needle.isPrefixOf (c :: cs) || containsAux needle cs

/-- Python `needle in hay` on strings (substring test). -/
def pyContains (hay needle : String) : Bool := containsAux needle.data hay.data

/-- Left-to-right, non-overlapping replacement of every occurrence of `pat`
(non-empty in every use below) by `repl`; `fuel` bounds the recursion and is
started at the length of the scanned list, which one step always shrinks. -/
def replaceFuel (pat repl : List Char) : Nat → List Char → List Char
  | 0, s => s
  | _ + 1, [] => []
  | fuel + 1, c :: cs =>
    if pat.isPrefixOf (c :: cs) && !pat.isEmpty then
      repl ++ replaceFuel pat repl fuel ((c :: cs).drop pat.length)
    else c :: replaceFuel pat repl fuel cs

/-- Python `s.replace(pat, repl)` (replace all occurrences). -/
def pyReplace (s pat repl : String) : String :=
  ⟨replaceFuel pat.data repl.data s.data.length s.data⟩

/-- A Python exception that escapes an embedded function. -/
inductive PyErr where
  | indexError
  | attributeError (msg : String)
deriving Repr, DecidableEq

/-- One paper dictionary.  A superset of the keys produced by
`AcademicSearchAggregator._format_papers` (title, authors, year, abstract,
url, source, relevance_score) and by `ResearchGapAgent.search_arxiv`
(title, abstract, url, pdf_url, authors, date, source); keys a producer does
not set keep the default below. -/
structure Paper where
  title : String := ""
  authors : List String := []
  year : String := ""
  abstract : String := ""
  url : String := ""
  pdf_url : String := ""
  date : String := ""
  source : String := ""
  relevance_score : Int := 0
deriving Repr, DecidableEq

/-! ## AcademicSearchAggregator (src/academic_search.py) -/

structure DbConfig where
  enabled : Bool
deriving Repr, DecidableEq

/-- The `config['databases']` table consulted by `_initialize_sources`. -/
structure AggConfig where
  semantic_scholar : DbConfig
  arxiv : DbConfig
  ieee : DbConfig
deriving Repr, DecidableEq

/-- `AcademicSearchAggregator._initialize_sources`: the `enabled_sources`
list, appended in the fixed order semantic_scholar, arxiv, ieee. -/
def init_sources (c : AggConfig) : List String :=
  ((if c.semantic_scholar.enabled then ["semantic_scholar"] else []) ++
    (if c.arxiv.enabled then ["arxiv"] else [])) ++
  (if c.ieee.enabled then ["ieee"] else [])

/-- One raw Semantic Scholar paper object; `none` is an absent JSON field. -/
structure RawPaper where
  title : Option String := none
  authors : Option (List String) := none
  year : Option String := none
  abstract : Option String := none
  url : Option String := none
  citationCount : Option Int := none
deriving Repr, DecidableEq

/-- `AcademicSearchAggregator._format_papers`: each field via
`paper.get(key, default)`. -/
def format_papers (papers : List RawPaper) (source : String) : List Paper :=
  papers.map (fun p =>
    { title := p.title.getD ""
      authors := p.authors.getD []
      year := p.year.getD ""
      abstract := p.abstract.getD ""
      url := p.url.getD ""
      source := source
      relevance_score := p.citationCount.getD 0 })

/-- Outcome of one outbound HTTP request: the request itself raised, or a
response arrived with a status code and a payload. -/
inductive HttpOutcome (α : Type) where
  | raises
  | response (status : Nat) (payload : α)

/-- Environment for one `search_all_sources` call: what each source's HTTP
request would yield.  The Semantic Scholar payload is the parsed `data`
field of the JSON body (`.error` = `response.json()` raised on a malformed
body); the arXiv payload is the response text. -/
structure AggEnv where
  ssOutcome : HttpOutcome (Except Unit (List RawPaper))
  arxivOutcome : HttpOutcome String

/-- `AcademicSearchAggregator._search_semantic_scholar`: on status 200
format the `data` list, otherwise raise. -/
def search_semantic_scholar (env : AggEnv) : Except Unit (List Paper) :=
  match env.ssOutcome with
  | .raises => .error ()
  | .response status payload =>
    if status = 200 then
      match payload with
      | .error _ => .error ()
      | .ok data => .ok (format_papers data "semantic_scholar")
    else .error ()

/-- `AcademicSearchAggregator._search_arxiv`: on status 200 the source sets
`papers = []` (the XML parsing is left unimplemented) and formats that empty
list, otherwise it raises. -/
def search_arxiv_source (env : AggEnv) : Except Unit (List Paper) :=
  match env.arxivOutcome with
  | .raises => .error ()
  | .response status _text =>
    if status = 200 then .ok (format_papers [] "arxiv") else .error ()

/-- One entry of the `results` dict of `search_all_sources`:
`{"status": ..., "papers": ...}`. -/
structure SourceResult where
  ok : Bool
  papers : List Paper
deriving Repr, DecidableEq

/-- The per-source branch of the `gather` join: an exception becomes a
failed entry with an empty paper list. -/
def toSourceResult : Except Unit (List Paper) → SourceResult
  | .error _ => ⟨false, []⟩
  | .ok ps => ⟨true, ps⟩

/-- The coroutine built for one enabled source while the task list is
assembled (the `if source in enabled_sources` ladder). -/
def run_source (env : AggEnv) (s : String) : Except Unit (List Paper) :=
  if s = "semantic_scholar" then search_semantic_scholar env else search_arxiv_source env

/-- `AcademicSearchAggregator.search_all_sources`.  The class defines no
`_search_ieee`, so when `ieee` is enabled the task-list construction raises
`AttributeError` before `gather` runs and the whole call fails; otherwise
the `zip(self.enabled_sources, search_results)` pairs each enabled source,
in construction order, with its own task's outcome, and
`return_exceptions=True` turns a per-task exception into that source's
failed entry. -/
def search_all_sources (c : AggConfig) (env : AggEnv) :
    Except PyErr (List (String × SourceResult)) :=
  if c.ieee.enabled then
    .error (.attributeError "_search_ieee")
  else
    .ok ((init_sources c).map (fun s => (s, toSourceResult (run_source env s))))

/-! ## ResearchGapAgent (src/research_agent.py) -/

/-- The optional text-generation client as seen by
`_generate_search_queries`: `none` = `claude_client` is `None`; `some (.error ())`
= anything inside the `try` raised; `some (.ok text)` = the call succeeded and
`response.content[0].text` is `text`. -/
def ClaudeQueryEnv : Type := Option (Except Unit String)

/-- The baseline queries built before the optional client call: the first ten
whitespace tokens of the gap text joined by spaces, then — when the concept
list is non-empty — `key_concepts[0] + " " + research_gaps.split()[0]`, which
raises `IndexError` when the gap text has no tokens. -/
def baseline_queries (research_gaps : String) (key_concepts : List String) :
    Except PyErr (List String) :=
  let toks := pySplitWs research_gaps
  let gap_query := pyJoin " " (toks.take 10)
  match key_concepts with
  | [] => .ok [gap_query]
  | c :: _ =>
    match toks with
    | [] => .error .indexError
    | t :: _ => .ok [gap_query, c ++ " " ++ t]

/-- The list-comprehension cleanup of the client's reply:
`[q.strip() for q in text.strip().split('\n') if q.strip()][:3]`. -/
def clean_claude_queries (text : String) : List String :=
  (((splitPred (fun c => decide (c = '\n')) (pyStrip text)).map pyStrip).filter (fun q => decide (q ≠ ""))).take 3

/-- The `if self.claude_client:` block: a raised call leaves the baseline
untouched (logged only); a successful call replaces the queries entirely. -/
def apply_claude (queries : List String) (claude : ClaudeQueryEnv) : List String :=
  match claude with
  | none => queries
  | some (.error _) => queries
  | some (.ok text) => clean_claude_queries text

/-- `ResearchGapAgent._generate_search_queries`. -/
def generate_search_queries (research_gaps : String) (key_concepts : List String)
    (claude : ClaudeQueryEnv) : Except PyErr (List String) :=
  match baseline_queries research_gaps key_concepts with
  | .error e => .error e
  | .ok queries => .ok (apply_claude queries claude)

/-- One `entry` element of the arXiv Atom feed, reduced to the element texts
`search_arxiv` reads (`none` = element absent). -/
structure AtomEntry where
  title : Option String := none
  summary : Option String := none
  idUrl : Option String := none
  published : Option String := none
  authorNames : List String := []
deriving Repr, DecidableEq

/-- Outcome of the GET issued by `ResearchGapAgent.search_arxiv` for one
query: an exception anywhere inside the `try` (network, XML parsing), or a
response whose parsed entries are given (meaningful when the status is 200). -/
inductive ArxivResp where
  | raises
  | response (status : Nat) (entries : List AtomEntry)
deriving Repr, DecidableEq

/-- The per-entry body of `search_arxiv`'s loop: an entry is kept only when
its title and id elements are present. -/
def parse_arxiv_entry (e : AtomEntry) : Option Paper :=
  match e.title, e.idUrl with
  | some t, some i =>
    some { title := pyReplace (pyStrip t) "\n" " "
           abstract := (e.summary.map pyStrip).getD ""
           url := i
           pdf_url := (pyReplace i "abs" "pdf") ++ ".pdf"
           authors := e.authorNames
           date := (e.published.map (fun s => s.take 10)).getD ""
           source := "arXiv" }
  | _, _ => none

/-- `ResearchGapAgent.search_arxiv`: a non-200 status falls through to the
final `return []`, and any exception is caught and also yields `[]`. -/
def search_arxiv (respond : String → ArxivResp) (query : String) : List Paper :=
  match respond query with
  | .raises => []
  | .response status entries =>
    if status = 200 then entries.filterMap parse_arxiv_entry else []

/-- The knowledge-store client: the outcome of `databases.query` for a given
30-character title key — `.error` = the call raised, `.ok n` = it returned
`n` results. -/
structure NotionEnv where
  query : String → Except Unit Nat

/-- `ResearchGapAgent.paper_exists_in_notion`: `False` without a client; the
lookup key is `title[:30]`; a raised lookup is logged and reported `False`. -/
def paper_exists_in_notion (notion : Option NotionEnv) (title : String) : Bool :=
  match notion with
  | none => false
  | some nv =>
    match nv.query (title.take 30) with
    | .error _ => false
    | .ok n => decide (0 < n)

/-- The `for paper in ranked_papers: if not self.paper_exists_in_notion(...):
new_paper = paper; break` loop of `find_papers_for_gaps`. -/
def filter_known_loop (notion : Option NotionEnv) : List Paper → Option Paper
  | [] => none
  | p :: rest =>
    if paper_exists_in_notion notion p.title then filter_known_loop notion rest
    else some p

/-- The identity key of `_deduplicate_papers`: `paper['title'].lower()[:50]`. -/
def dedup_key (p : Paper) : String := (pyLower p.title).take 50

/-- The loop of `_deduplicate_papers`, with the `seen` set made explicit. -/
def dedup_aux (seen : List String) : List Paper → List Paper
  | [] => []
  | p :: rest =>
    if dedup_key p ∈ seen then dedup_aux seen rest
    else p :: dedup_aux (dedup_key p :: seen) rest

/-- `ResearchGapAgent._deduplicate_papers`. -/
def deduplicate_papers (papers : List Paper) : List Paper := dedup_aux [] papers

/-- `ResearchGapAgent._rank_papers_by_relevance`: the source returns the
list as-is ("For now, just return as-is"). -/
def rank_papers_by_relevance (papers : List Paper) (research_gaps : String) :
    List Paper :=
  papers

/-- The dict returned by `find_papers_for_gaps`. -/
structure SelectionResult where
  papers : List Paper
  summary : String
  search_queries : List String
deriving Repr, DecidableEq

/-- Environment of one `find_papers_for_gaps` run: the optional
text-generation client, the optional knowledge-store client, and the arXiv
endpoint's behaviour per query. -/
structure AgentEnv where
  claude : ClaudeQueryEnv
  notion : Option NotionEnv
  arxivRespond : String → ArxivResp

/-- The search loop of `find_papers_for_gaps`: `for query in
search_queries[:2]: all_papers.extend(await self.search_arxiv(query, 3))`. -/
def collect_papers (respond : String → ArxivResp) (qs : List String) : List Paper :=
  (qs.take 2).flatMap (fun q => search_arxiv respond q)

/-- The dedupe/rank stages of `find_papers_for_gaps` (ranking runs only when
a client is present and the deduplicated list is non-empty). -/
def pipeline_ranked (env : AgentEnv) (research_gaps : String) (qs : List String) :
    List Paper :=
  let unique_papers := deduplicate_papers (collect_papers env.arxivRespond qs)
  if env.claude.isSome && !unique_papers.isEmpty then
    rank_papers_by_relevance unique_papers research_gaps
  else unique_papers

/-- `ResearchGapAgent.find_papers_for_gaps` (the `original_title` argument is
unused by the source). -/
def find_papers_for_gaps (env : AgentEnv) (research_gaps : String)
    (key_concepts : List String) (original_title : String) :
    Except PyErr SelectionResult :=
  match generate_search_queries research_gaps key_concepts env.claude with
  | .error e => .error e
  | .ok search_queries =>
    let ranked_papers := pipeline_ranked env research_gaps search_queries
    let new_paper := filter_known_loop env.notion ranked_papers
    .ok { papers := match new_paper with | some p => [p] | none => []
          summary := "Found " ++ toString ranked_papers.length ++
            " papers addressing the research gaps"
          search_queries := search_queries }

/-- `ResearchGapAgent.arxiv_base`, the one URL the dispatch stage contacts. -/
def arxiv_base : String := "http://export.arxiv.org/api/query"

/-- The outbound requests (endpoint, query) issued by the `DISPATCH_SEARCH`
stage of `find_papers_for_gaps`: one GET to `arxiv_base` per query, for the
first two queries only. -/
def dispatch_requests (search_queries : List String) : List (String × String) :=
  (search_queries.take 2).map (fun q => (arxiv_base, q))

/-- The arXiv abstract page as seen through the soup lookups of
`fetch_and_analyze_paper`: text of `h1.title`, text of
`blockquote.abstract`, and the stripped anchor texts under `div.authors`
(empty when the div is absent). -/
structure ArxivPage where
  titleElem : Option String := none
  abstractElem : Option String := none
  authorLinks : List String := []
deriving Repr, DecidableEq

/-- Outcome of the page GET inside `fetch_and_analyze_paper`: an exception
anywhere in the `try` (carrying `str(e)`), or a response. -/
inductive FetchHttp where
  | raises (msg : String)
  | response (status : Nat) (page : ArxivPage)
deriving Repr, DecidableEq

/-- The JSON object parsed out of the analysis reply; the prompt requests
exactly the keys `key_concepts`, `methodology`, `theme`, and `dict.update`
overwrites only the keys present. -/
structure ClaudeAnalysis where
  key_concepts : Option (List String) := none
  methodology : Option String := none
  theme : Option String := none
deriving Repr, DecidableEq

/-- The optional analysis client inside `fetch_and_analyze_paper`: `none` =
no client; `some (.error ())` = the call raised (caught and logged);
`some (.ok none)` = reply had no JSON object (`json_match` is `None`);
`some (.ok (some ca))` = parsed object `ca`. -/
def ClaudeAnalysisEnv : Type := Option (Except Unit (Option ClaudeAnalysis))

/-- The `analysis` dict assembled by `fetch_and_analyze_paper`. -/
structure Analysis where
  title : String
  abstract : String
  authors : List String
  url : String
  pdf_url : String
  summary : String
  key_concepts : List String
  methodology : String
  theme : String
deriving Repr, DecidableEq

/-- Return value of `fetch_and_analyze_paper`: `{'success': True, 'data':
analysis}`, the generic `{'success': True, 'data': {...'External Paper'...}}`,
or `{'success': False, 'error': str(e)}`. -/
inductive FetchResult where
  | ok (data : Analysis)
  | okExternal (title url summary : String)
  | fail (msg : String)
deriving Repr, DecidableEq

/-- `analysis.update(claude_analysis)` restricted to the three requested keys. -/
def apply_analysis_update (a : Analysis) (u : ClaudeAnalysis) : Analysis :=
  { a with
    key_concepts := u.key_concepts.getD a.key_concepts
    methodology := u.methodology.getD a.methodology
    theme := u.theme.getD a.theme }

/-- `ResearchGapAgent.fetch_and_analyze_paper`.  A non-arXiv URL, and an
arXiv URL answered with a non-200 status (that branch has no `return`), both
fall through to the generic success dict; an exception yields the failure
dict; the analysis client is consulted only when present and the extracted
abstract is non-empty, and its failure leaves the defaults
`key_concepts = []`, `methodology = 'Not analyzed'`, `theme = 'General'`. -/
def fetch_and_analyze_paper (http : FetchHttp) (claude : ClaudeAnalysisEnv)
    (paper_url : String) : FetchResult :=
  if pyContains paper_url "arxiv.org" then
    match http with
    | .raises msg => .fail msg
    | .response status page =>
      if status = 200 then
        let pdf_url := (pyReplace paper_url "abs" "pdf") ++ ".pdf"
        let title := match page.titleElem with
          | some t => pyStrip (pyReplace t "Title:" "")
          | none => ""
        let abstract := match page.abstractElem with
          | some a => pyStrip (pyReplace a "Abstract:" "")
          | none => ""
        let base : Analysis :=
          { title := title, abstract := abstract, authors := page.authorLinks
            url := paper_url, pdf_url := pdf_url
            summary := if 500 < abstract.length then abstract.take 500 ++ "..."
              else abstract
            key_concepts := [], methodology := "Not analyzed", theme := "General" }
        let updated := match claude with
          | none => base
          | some cres =>
            if abstract = "" then base
            else match cres with
              | .error _ => base
              | .ok none => base
              | .ok (some ca) => apply_analysis_update base ca
        .ok updated
      else .okExternal "External Paper" paper_url "External paper - manual review needed"
  else .okExternal "External Paper" paper_url "External paper - manual review needed"

/-! ## Spec-side definitions, for comparison with the embedded code.
Each follows the spec's words, not the source. -/

/-- Spec 4.3: keep the first occurrence of each identity key; every later
candidate with an already-seen key is dropped; order is retained. -/
def dedupe_spec : List Paper → List Paper
  | [] => []
  | p :: rest =>
    p :: dedupe_spec (rest.filter (fun q => decide (dedup_key q ≠ dedup_key p)))
termination_by l => l.length
decreasing_by
  simp only [List.length_cons]
  exact Nat.lt_succ_of_le (List.length_filter_le _ _)

/-- Spec 4.2/4.6 dispatch contract: the first two queries, each searched
against every enabled source. -/
def dispatch_requests_spec (enabled_sources : List String)
    (search_queries : List String) : List (String × String) :=
  (search_queries.take 2).flatMap (fun q => enabled_sources.map (fun s => (s, q)))

/-- Spec 4.4: relevance scores are non-increasing along the list. -/
def scores_descending : List Paper → Bool
  | [] => true
  | [_] => true
  | p :: q :: rest => (decide (q.relevance_score ≤ p.relevance_score)) &&
      scores_descending (q :: rest)

/-- Spec 8 (dedup case-insensitivity): the first 50 characters of a title
with letter case and whitespace discarded. -/
def case_ws_key (s : String) : String :=
  ((pyLower (s.take 50)).data.filter (fun c => !c.isWhitespace)).asString

/-! ## Concrete fixtures used by counterexamples and witnesses. -/

def cfg_all : AggConfig := ⟨⟨true⟩, ⟨true⟩, ⟨true⟩⟩

def cfg_sa : AggConfig := ⟨⟨true⟩, ⟨true⟩, ⟨false⟩⟩

def env_agg_ok : AggEnv := ⟨.response 200 (.ok []), .response 200 ""⟩

def env_ss_fails : AggEnv := ⟨.raises, .response 200 ""⟩

def paper_low : Paper := { title := "Low scoring paper", relevance_score := 1 }

def paper_high : Paper := { title := "High scoring paper", relevance_score := 5 }

def paper_ws_a : Paper := { title := "A B" }

def paper_ws_b : Paper := { title := "A  B" }

def paper_case_a : Paper := { title := "Foo" }

def paper_case_b : Paper := { title := "FOO" }

def notion_raises : NotionEnv := ⟨fun _ => .error ()⟩

def entry_t1 : AtomEntry :=
  ⟨some "T1", some "S", some "u-abs-1", some "2024-01-02T00:00:00Z", ["Au"]⟩

def paper_t1 : Paper :=
  { title := "T1", authors := ["Au"], abstract := "S", url := "u-abs-1",
    pdf_url := "u-pdf-1.pdf", date := "2024-01-02", source := "arXiv" }

def env_c10 : AgentEnv := ⟨none, none, fun _ => .response 200 [entry_t1]⟩

def page_sample : ArxivPage :=
  ⟨some "Title: Sample", some "Abstract: Body", ["Alice"]⟩

/-! ## Shared lemmas -/

/-- The selection loop of `find_papers_for_gaps` returns the first candidate
the existence check reports absent. -/
theorem filter_loop_eq_find (notion : Option NotionEnv) (l : List Paper) :
    filter_known_loop notion l
      = l.find? (fun p => !(paper_exists_in_notion notion p.title)) := by
  induction l with
  | nil => rfl
  | cons p rest ih =>
    cases h : paper_exists_in_notion notion p.title with
    | true => simp [filter_known_loop, h, List.find?_cons, ih]
    | false => simp [filter_known_loop, h, List.find?_cons]

/-- `dedup_aux` only ever drops elements, keeping input order. -/
theorem dedup_aux_sublist (seen : List String) (l : List Paper) :
    (dedup_aux seen l).Sublist l := by
  induction l generalizing seen with
  | nil => simp [dedup_aux]
  | cons p rest ih =>
    by_cases h : dedup_key p ∈ seen
    · simp only [dedup_aux, if_pos h]
      exact (ih seen).cons p
    · simp only [dedup_aux, if_neg h]
      exact (ih _).cons₂ p

/-- Unfolding of the spec deduplication on an empty list. -/
theorem dedupe_spec_nil : dedupe_spec [] = [] := by
  simp [dedupe_spec]

/-- Unfolding of the spec deduplication on a non-empty list. -/
theorem dedupe_spec_cons (p : Paper) (rest : List Paper) :
    dedupe_spec (p :: rest)
      = p :: dedupe_spec (rest.filter (fun q => decide (dedup_key q ≠ dedup_key p))) := by
  simp [dedupe_spec]

/-- `dedup_aux seen` behaves like the spec deduplication after discarding the
keys already seen. -/
theorem dedup_aux_eq_spec (l : List Paper) :
    ∀ seen, dedup_aux seen l
      = dedupe_spec (l.filter (fun p => decide (dedup_key p ∉ seen))) := by
  induction l with
  | nil => intro seen; simp [dedup_aux, dedupe_spec_nil]
  | cons p rest ih =>
    intro seen
    by_cases h : dedup_key p ∈ seen
    · have hp : decide (dedup_key p ∉ seen) = false := by simp [h]
      simp only [dedup_aux, if_pos h, List.filter_cons, hp]
      simp only [Bool.false_eq_true, if_false]
      exact ih seen
    · have hp : decide (dedup_key p ∉ seen) = true := by simp [h]
      simp only [dedup_aux, if_neg h, List.filter_cons, hp, if_true]
      rw [dedupe_spec_cons]
      have hlist :
          (rest.filter (fun q => decide (dedup_key q ∉ seen))).filter
              (fun q => decide (dedup_key q ≠ dedup_key p))
            = rest.filter (fun q => decide (dedup_key q ∉ dedup_key p :: seen)) := by
        rw [List.filter_filter]
        apply List.filter_congr
        intro q _
        by_cases h1 : dedup_key q = dedup_key p <;> by_cases h2 : dedup_key q ∈ seen <;>
          simp [h1, h2, List.mem_cons]
      rw [hlist, ih (dedup_key p :: seen)]

/-- The selection dict's `papers` list is the first element of the list the
loop selected from, when the loop accepts the head. -/
theorem head_match_eq_take_one (l : List Paper) :
    (match l.head? with | some p => [p] | none => ([] : List Paper)) = l.take 1 := by
  cases l <;> rfl

/-! ## Claims -/

/-- Claim C1 (code bug witnessed): with all three sources enabled the
enabled-source list is non-empty, yet `search_all_sources` raises
`AttributeError` because the class defines no `_search_ieee`; without `ieee`
the mapping does have one entry per enabled source and a Semantic Scholar
failure is isolated to its own entry. -/
theorem c1_ieee_dispatch_raises :
    init_sources cfg_all = ["semantic_scholar", "arxiv", "ieee"]
    ∧ search_all_sources cfg_all env_agg_ok = .error (.attributeError "_search_ieee")
    ∧ search_all_sources cfg_sa env_ss_fails
        = .ok [("semantic_scholar", ⟨false, []⟩), ("arxiv", ⟨true, []⟩)] := by
  refine ⟨by decide, by decide, by decide⟩

/-- Claim C2, counterexample: for two generated queries the dispatch stage
issues exactly one request per query, both to the fixed arXiv endpoint,
whereas the 4.2 contract over the enabled sources of `cfg_sa` (semantic
scholar and arXiv both enabled) would search each query against both. -/
theorem c2_counterexample :
    dispatch_requests ["q1", "q2"] = [(arxiv_base, "q1"), (arxiv_base, "q2")]
    ∧ (dispatch_requests ["q1", "q2"]).map Prod.fst = [arxiv_base, arxiv_base]
    ∧ dispatch_requests_spec (init_sources cfg_sa) ["q1", "q2"]
        = [("semantic_scholar", "q1"), ("arxiv", "q1"),
           ("semantic_scholar", "q2"), ("arxiv", "q2")]
    ∧ dispatch_requests ["q1", "q2"]
        ≠ dispatch_requests_spec (init_sources cfg_sa) ["q1", "q2"] := by
  refine ⟨by decide, by decide, by decide, by decide⟩

/-- Claim C2, amended: the dispatch stage issues exactly the first two
generated queries, realizing the 4.2 dispatch contract with the single fixed
source `arxiv_base`; consequently every candidate entering the pipeline
carries the source tag "arXiv". -/
theorem c2_dispatch_single_source :
    (∀ qs : List String, dispatch_requests qs = dispatch_requests_spec [arxiv_base] qs)
    ∧ (∀ (respond : String → ArxivResp) (qs : List String) (p : Paper),
        p ∈ collect_papers respond qs → p.source = "arXiv") := by
  constructor
  · intro qs
    simp only [dispatch_requests, dispatch_requests_spec]
    induction qs.take 2 with
    | nil => rfl
    | cons q rest ih => simp [ih]
  · intro respond qs p hp
    simp only [collect_papers] at hp
    rcases List.mem_flatMap.mp hp with ⟨q, _, hq⟩
    simp only [search_arxiv] at hq
    split at hq
    · exact absurd hq (List.not_mem_nil p)
    · split at hq
      · rcases List.mem_filterMap.mp hq with ⟨e, _, he⟩
        obtain ⟨t, s, i, pub, an⟩ := e
        cases t <;> cases i <;> simp [parse_arxiv_entry] at he
        subst he
        rfl
      · exact absurd hq (List.not_mem_nil p)

/-- Claim C2, witness for the amended theorem at concrete inputs. -/
theorem c2_dispatch_single_source_witness :
    dispatch_requests ["a", "b", "c"] = dispatch_requests_spec [arxiv_base] ["a", "b", "c"]
    ∧ paper_t1.source = "arXiv" :=
  ⟨c2_dispatch_single_source.1 ["a", "b", "c"],
   c2_dispatch_single_source.2 (fun _ => .response 200 [entry_t1]) ["a"] paper_t1 (by decide)⟩

/-- Claim C3, counterexample: with an empty gap text and a non-empty concept
list query generation raises `IndexError`, and a successful external call
whose reply has no non-blank line replaces the baseline by an empty query
list (zero queries, not the baseline). -/
theorem c3_counterexample :
    generate_search_queries "" ["hallucination"] none = .error .indexError
    ∧ generate_search_queries "a b c" [] (some (.ok "  \n \n")) = .ok []
    ∧ baseline_queries "a b c" [] = .ok ["a b c"] := by
  refine ⟨by decide, by decide, by decide⟩

/-- Claim C3, amended: when the gap text has at least one token or the
concept list is empty, generation returns normally; the baseline has 1 or 2
queries and is returned unmodified when the capability is absent or raises;
a capability success replaces it by the reply's non-blank lines, capped
at 3 (possibly zero). -/
theorem c3_generation_fallback (gaps : String) (concepts : List String)
    (claude : ClaudeQueryEnv) (h : pySplitWs gaps ≠ [] ∨ concepts = []) :
    ∃ base, baseline_queries gaps concepts = .ok base
      ∧ 1 ≤ base.length ∧ base.length ≤ 2
      ∧ generate_search_queries gaps concepts claude = .ok (apply_claude base claude)
      ∧ ((claude = none ∨ claude = some (.error ())) → apply_claude base claude = base)
      ∧ (∀ text, claude = some (.ok text) →
          apply_claude base claude = clean_claude_queries text
          ∧ (clean_claude_queries text).length ≤ 3) := by
  have hb : ∃ base, baseline_queries gaps concepts = .ok base
      ∧ 1 ≤ base.length ∧ base.length ≤ 2 := by
    cases hc : concepts with
    | nil =>
      exact ⟨[pyJoin " " ((pySplitWs gaps).take 10)], by simp [baseline_queries],
        by simp, by simp⟩
    | cons c cs =>
      cases ht : pySplitWs gaps with
      | nil =>
        rcases h with h | h
        · exact absurd ht h
        · rw [hc] at h; cases h
      | cons t ts =>
        exact ⟨[pyJoin " " ((t :: ts).take 10), c ++ " " ++ t],
          by simp [baseline_queries, ht], by simp, by simp⟩
  obtain ⟨base, hbase, h1, h2⟩ := hb
  refine ⟨base, hbase, h1, h2, ?_, ?_, ?_⟩
  · simp [generate_search_queries, hbase]
  · rintro (rfl | rfl) <;> rfl
  · rintro text rfl
    refine ⟨rfl, ?_⟩
    simp only [clean_claude_queries]
    rw [List.length_take]
    exact min_le_left _ _

/-- Claim C3, witness: concrete run of the amended theorem with no
capability configured; the result is exactly the two baseline queries. -/
theorem c3_generation_fallback_witness :
    generate_search_queries "llm gaps in code review" ["hallucination"] none
      = .ok ["llm gaps in code review", "hallucination llm"] := by
  obtain ⟨base, hbase, h1, h2, h3, h4, h5⟩ :=
    c3_generation_fallback "llm gaps in code review" ["hallucination"] none
      (Or.inl (by decide))
  rw [h3, h4 (Or.inl rfl)]
  have hcalc : baseline_queries "llm gaps in code review" ["hallucination"]
      = .ok ["llm gaps in code review", "hallucination llm"] := by decide
  rw [hcalc] at hbase
  injection hbase with hb
  rw [hb]

/-- Claim C4, counterexample: the ranking stage returns the list unchanged,
so a list whose second candidate outscores the first is not returned in
descending score order. -/
theorem c4_counterexample :
    rank_papers_by_relevance [paper_low, paper_high] "gaps" = [paper_low, paper_high]
    ∧ scores_descending (rank_papers_by_relevance [paper_low, paper_high] "gaps")
        = false := by
  refine ⟨rfl, by decide⟩

/-- Claim C4, amended: `_rank_papers_by_relevance` is the identity on its
candidate list (the source returns it as-is), so input order — and in
particular the relative order of equal-score candidates — is always
preserved, but no descending reordering by score takes place. -/
theorem c4_rank_identity (papers : List Paper) (research_gaps : String) :
    rank_papers_by_relevance papers research_gaps = papers := rfl

/-- Claim C5: the filter returns the first candidate, in rank order, that
the existence check reports absent; it returns none exactly when every
candidate is reported present (so also on the empty list); a raised lookup
for the 30-character key is reported as absent; hence when the lookup raises
for every candidate the top-ranked candidate is selected. -/
theorem c5_filter_fail_open (notion : NotionEnv) (ranked : List Paper) :
    filter_known_loop (some notion) ranked
        = ranked.find? (fun p => !(paper_exists_in_notion (some notion) p.title))
    ∧ (filter_known_loop (some notion) ranked = none ↔
        ∀ p ∈ ranked, paper_exists_in_notion (some notion) p.title = true)
    ∧ (∀ title, notion.query (title.take 30) = .error () →
        paper_exists_in_notion (some notion) title = false)
    ∧ ((∀ p ∈ ranked, notion.query (p.title.take 30) = .error ()) →
        filter_known_loop (some notion) ranked = ranked.head?) := by
  have herr : ∀ title, notion.query (title.take 30) = .error () →
      paper_exists_in_notion (some notion) title = false := by
    intro title h
    simp [paper_exists_in_notion, h]
  refine ⟨filter_loop_eq_find _ _, ?_, herr, ?_⟩
  · rw [filter_loop_eq_find, List.find?_eq_none]
    constructor
    · intro hall p hp
      have := hall p hp
      simpa using this
    · intro hall p hp
      simp [hall p hp]
  · intro hq
    cases ranked with
    | nil => rfl
    | cons p rest =>
      have : paper_exists_in_notion (some notion) p.title = false :=
        herr p.title (hq p (List.mem_cons_self p rest))
      simp [filter_known_loop, this]

/-- Claim C5, witness: a store whose lookup always raises never blocks the
top-ranked candidate. -/
theorem c5_filter_fail_open_witness :
    filter_known_loop (some notion_raises) [paper_low, paper_high] = some paper_low := by
  have h := c5_filter_fail_open notion_raises [paper_low, paper_high]
  exact (h.2.2.2 (by intro p _; rfl)).trans rfl

/-- Claim C6: deduplication equals the spec procedure that keeps exactly the
first occurrence (in input order) of each identity key — the lower-cased
title truncated to 50 characters — dropping every later candidate with a
seen key; and its output is a sublist of the input, so kept candidates
retain input order. -/
theorem c6_dedup_first_occurrence (l : List Paper) :
    deduplicate_papers l = dedupe_spec l
    ∧ (deduplicate_papers l).Sublist l := by
  constructor
  · have h := dedup_aux_eq_spec l []
    have hfil : l.filter (fun p => decide (dedup_key p ∉ ([] : List String))) = l := by
      apply List.filter_eq_self.mpr
      intro a _
      simp
    rw [deduplicate_papers, h, hfil]
  · exact dedup_aux_sublist [] l

/-- Claim C7, counterexample: two records whose titles differ only by
whitespace within the first 50 characters (equal after discarding case and
whitespace, unequal as written) are both kept by deduplication — they do not
collapse to one. -/
theorem c7_counterexample :
    case_ws_key paper_ws_a.title = case_ws_key paper_ws_b.title
    ∧ paper_ws_a.title ≠ paper_ws_b.title
    ∧ deduplicate_papers [paper_ws_a, paper_ws_b] = [paper_ws_a, paper_ws_b] := by
  refine ⟨by decide, by decide, by decide⟩

/-- Claim C7, amended: deduplication is case-insensitive but not
whitespace-insensitive — two records whose lower-cased titles agree on the
first 50 characters collapse to the first occurrence. -/
theorem c7_case_only_collapse (pa pb : Paper)
    (h : (pyLower pa.title).take 50 = (pyLower pb.title).take 50) :
    deduplicate_papers [pa, pb] = [pa] := by
  have hk : dedup_key pb = dedup_key pa := by
    simp [dedup_key, h]
  simp [deduplicate_papers, dedup_aux, hk]

/-- Claim C7, witness: titles differing only in letter case collapse. -/
theorem c7_case_only_collapse_witness :
    deduplicate_papers [paper_case_a, paper_case_b] = [paper_case_a] :=
  c7_case_only_collapse paper_case_a paper_case_b (by decide)

/-- Claim C8, counterexample: a source item with every field absent is
normalized to a record whose title is the empty string — the non-empty-title
invariant fails (the source identifier is populated). -/
theorem c8_counterexample :
    format_papers [{}] "semantic_scholar"
      = [{ title := "", source := "semantic_scholar" }]
    ∧ (format_papers [{}] "semantic_scholar").map Paper.title = [""] := by
  refine ⟨by decide, by decide⟩

/-- Claim C8, amended: every record produced by `_format_papers` carries the
adapter's source identifier, while the title is best-effort: it is the raw
title when that field is present and the empty string otherwise. -/
theorem c8_source_always_set (raws : List RawPaper) (src : String) (p : Paper)
    (hp : p ∈ format_papers raws src) :
    p.source = src ∧ (p.title = "" ∨ ∃ r ∈ raws, r.title = some p.title) := by
  rcases List.mem_map.mp hp with ⟨r, hr, rfl⟩
  refine ⟨rfl, ?_⟩
  cases ht : r.title with
  | none => left; simp [ht]
  | some t => right; exact ⟨r, hr, by simp [ht]⟩

/-- Claim C8, witness for the amended theorem at a field-missing item. -/
theorem c8_source_always_set_witness :
    ({ title := "", source := "arxiv" } : Paper).source = "arxiv"
    ∧ (({ title := "", source := "arxiv" } : Paper).title = ""
        ∨ ∃ r ∈ [({} : RawPaper)], r.title = some ({ title := "", source := "arxiv" } : Paper).title) :=
  c8_source_always_set [{}] "arxiv" { title := "", source := "arxiv" } (by decide)

/-- Claim C9, counterexample: enriching a valid arXiv URL with the analysis
capability disabled populates title/abstract/authors from the page, but the
derived methodology and theme fields hold the non-empty placeholders
"Not analyzed" and "General" — they are not empty as claimed. -/
theorem c9_counterexample :
    fetch_and_analyze_paper (.response 200 page_sample) none "https://arxiv.org/abs/1234"
      = .ok { title := "Sample", abstract := "Body", authors := ["Alice"],
              url := "https://arxiv.org/abs/1234",
              pdf_url := "https://arxiv.org/pdf/1234.pdf", summary := "Body",
              key_concepts := [], methodology := "Not analyzed", theme := "General" }
    ∧ ("Not analyzed" : String) ≠ "" ∧ ("General" : String) ≠ "" := by
  refine ⟨by decide, by decide, by decide⟩

/-- Claim C9, amended: with the analysis capability disabled or raising, the
enrichment of an arXiv URL whose page yields title and abstract elements
succeeds with the concept list empty, methodology "Not analyzed", theme
"General", and title, abstract and authors extracted from the page. -/
theorem c9_enrich_fallback (page : ArxivPage) (url t a : String)
    (claude : ClaudeAnalysisEnv)
    (hurl : pyContains url "arxiv.org" = true)
    (ht : page.titleElem = some t)
    (ha : page.abstractElem = some a)
    (hc : claude = none ∨ claude = some (.error ())) :
    fetch_and_analyze_paper (.response 200 page) claude url
      = .ok { title := pyStrip (pyReplace t "Title:" "")
              abstract := pyStrip (pyReplace a "Abstract:" "")
              authors := page.authorLinks
              url := url
              pdf_url := (pyReplace url "abs" "pdf") ++ ".pdf"
              summary := if 500 < (pyStrip (pyReplace a "Abstract:" "")).length
                then (pyStrip (pyReplace a "Abstract:" "")).take 500 ++ "..."
                else pyStrip (pyReplace a "Abstract:" "")
              key_concepts := []
              methodology := "Not analyzed"
              theme := "General" } := by
  rcases hc with rfl | rfl
  · simp [fetch_and_analyze_paper, hurl, ht, ha]
  · simp [fetch_and_analyze_paper, hurl, ht, ha, ite_self]

/-- Claim C9, witness for the amended theorem at a concrete page. -/
theorem c9_enrich_fallback_witness :
    fetch_and_analyze_paper (.response 200 page_sample) none "https://arxiv.org/abs/1234"
      = .ok { title := pyStrip (pyReplace "Title: Sample" "Title:" "")
              abstract := pyStrip (pyReplace "Abstract: Body" "Abstract:" "")
              authors := page_sample.authorLinks
              url := "https://arxiv.org/abs/1234"
              pdf_url := (pyReplace "https://arxiv.org/abs/1234" "abs" "pdf") ++ ".pdf"
              summary := if 500 < (pyStrip (pyReplace "Abstract: Body" "Abstract:" "")).length
                then (pyStrip (pyReplace "Abstract: Body" "Abstract:" "")).take 500 ++ "..."
                else pyStrip (pyReplace "Abstract: Body" "Abstract:" "")
              key_concepts := []
              methodology := "Not analyzed"
              theme := "General" } :=
  c9_enrich_fallback page_sample "https://arxiv.org/abs/1234" "Title: Sample"
    "Abstract: Body" none (by decide) rfl rfl (Or.inl rfl)

/-- Claim C10: with no knowledge-store client the existence check reports
false for every title, the selection loop returns the head of any ranked
list, and `find_papers_for_gaps` returns the first candidate of the ranked
list (an empty `papers` list when it is empty). -/
theorem c10_no_store_selects_head (env : AgentEnv) (gaps original : String)
    (concepts : List String) (qs : List String)
    (hn : env.notion = none)
    (hq : generate_search_queries gaps concepts env.claude = .ok qs) :
    (∀ t, paper_exists_in_notion none t = false)
    ∧ (∀ l : List Paper, filter_known_loop none l = l.head?)
    ∧ find_papers_for_gaps env gaps concepts original
        = .ok { papers := (pipeline_ranked env gaps qs).take 1
                summary := "Found " ++ toString (pipeline_ranked env gaps qs).length
                  ++ " papers addressing the research gaps"
                search_queries := qs } := by
  have h2 : ∀ l : List Paper, filter_known_loop none l = l.head? := by
    intro l
    cases l with
    | nil => rfl
    | cons p rest => simp [filter_known_loop, paper_exists_in_notion]
  refine ⟨fun _ => rfl, h2, ?_⟩
  simp only [find_papers_for_gaps, hq, hn, h2, head_match_eq_take_one]

/-- Claim C10, witness: a concrete client-less run selects the single
candidate the arXiv search returned. -/
theorem c10_no_store_selects_head_witness :
    find_papers_for_gaps env_c10 "a b" [] "orig"
      = .ok { papers := (pipeline_ranked env_c10 "a b" ["a b"]).take 1
              summary := "Found " ++ toString (pipeline_ranked env_c10 "a b" ["a b"]).length
                ++ " papers addressing the research gaps"
              search_queries := ["a b"] } :=
  (c10_no_store_selects_head env_c10 "a b" "orig" [] ["a b"] rfl (by decide)).2.2

end RA
